import Mathlib

/-!
# Guardio gateway core — shallow embedding

A shallow embedding of the Guardio proxy's policy pipeline and transport
glue, translated from the TypeScript source:

* `core/Processor.ts` — `processMessage`, `buildGuardioBlockedResponse`,
  `buildProcessingEvent`, `emitProcessingEvent`;
* `core/types.ts` — the JSON-RPC request shape and `GuardioAction`;
* `plugins/storage/SqliteCoreRepository.ts` — `getPoliciesForContext`
  (the SQL `WHERE`/`ORDER BY` is modelled with SQL three-valued-logic
  comparison semantics);
* `core/transports/sse-url-transport.ts` — `SseUrlTransport.send`;
* `core/GuardioCore.ts` — `handlePostMessage`'s readiness gate and the
  `endpointReady` discovery-deduplication handler;
* `core/transports/http-client.ts` — the SSE close handler;
* `plugins/policy/DenyRegexParameterPolicyPlugin.ts` — the built-in
  deny-regex policy (used for concrete instances).

Effectful JavaScript inputs that the code reads (clock, uuid generator,
package version, `JSON.parse`, `fetch` results) are passed as explicit
parameters; `await`ed sequential promises become ordinary function calls.
-/

namespace Guardio

/-- JSON-RPC `id`: `string | number` in the source (`core/types.ts`). -/
abbrev JsonId := String ⊕ Int

/-- Drop leading whitespace characters from a character list. -/
def dropLeadingWs : List Char → List Char
  | [] => []
  | c :: cs => if c.isWhitespace then dropLeadingWs cs else c :: cs

/-- JS `String.prototype.trim()`: strip whitespace from both ends (modelled
over the character list so that it computes by structural recursion). -/
def jsTrim (s : String) : String :=
  ⟨(dropLeadingWs (dropLeadingWs s.data.reverse).reverse)⟩

/-- `RegExp("^" + lit).test s` for a literal pattern: `s` starts with `lit`
(modelled over character lists so that it computes by structural
recursion). -/
def jsStartsWith (s lit : String) : Bool :=
  lit.data.isPrefixOf s.data

/-- A JSON-ish runtime value, covering the `unknown` arguments payloads the
pipeline manipulates. Objects keep JS property insertion order as an
association list. -/
inductive JsValue where
  | str (s : String)
  | num (n : Int)
  | bool (b : Bool)
  | null
  | obj (fields : List (String × JsValue))

/-- Property/`Map` read `l[k]`: the value at the first entry for the key (JS
objects and maps hold each key at most once). -/
def aget {α : Type} : List (String × α) → String → Option α
  | [], _ => none
  | (a, b) :: rest, k => if k = a then some b else aget rest k

/-- JS `??` on options: the first operand unless it is absent. -/
def oor {α : Type} : Option α → Option α → Option α
  | some a, _ => some a
  | none, b => b

/-- JS `Map.set` / object property assignment on an association list: replace
the value at the entry already holding the key (keeping its position) or
append a new entry. Generic so it also models `Map<string, _>.set`. -/
def mapSet {α : Type} : List (String × α) → String → α → List (String × α)
  | [], k, v => [(k, v)]
  | (a, b) :: rest, k, v =>
      if a = k then (k, v) :: rest else (a, b) :: mapSet rest k v

/-- JS `Map.delete` on an association list. -/
def mapDelete {α : Type} (l : List (String × α)) (k : String) : List (String × α) :=
  l.filter (fun p => p.1 != k)

/-- Object spread update `{ ...base, ...upd }` restricted to the update part:
assign each `(k, v)` of `upd` into `base` left to right. Later entries
overwrite earlier ones; key order is first-insertion order, as in JS. -/
def objAssign (base : List (String × JsValue)) (upd : List (String × JsValue)) :
    List (String × JsValue) :=
  upd.foldl (fun acc p => mapSet acc p.1 p.2) base

/-- The own enumerable properties produced by spreading a value, as in
`{ ...(args as object) }`: objects contribute their fields, strings
contribute index-keyed single characters, and `undefined` / `null` /
numbers / booleans contribute nothing. -/
def spreadable : Option JsValue → List (String × JsValue)
  | some (.obj fs) => fs
  | some (.str s) =>
      (s.toList.enum.map fun p => (toString p.1, JsValue.str (String.singleton p.2)))
  | _ => []

/-- `params` of a JSON-RPC request (`core/types.ts`). -/
structure RpcParams where
  name : Option String
  arguments : Option JsValue

/-- `JsonRpcRequest` from `core/types.ts`. A `none` id covers both an absent
(`undefined`) and a `null` id, which the source treats identically. -/
structure JsonRpcRequest where
  jsonrpc : Option String
  id : Option JsonId
  method : Option String
  params : Option RpcParams

/-- `PolicyVerdict` from `interfaces/PolicyTypes.ts`. -/
inductive PolicyVerdict where
  | allow
  | block
  | flag
  | negotiate
deriving DecidableEq

/-- `PolicyResult` from `interfaces/PolicyTypes.ts`. `modified_args` is a
`Record<string, unknown>`; with this typed shape, the source's
`result.modified_args != null && typeof === "object"` guard is exactly
presence of the field. -/
structure PolicyResult where
  verdict : PolicyVerdict
  code : Option String
  reason : Option String
  modified_args : Option (List (String × JsValue))

/-- `PolicyRequestContext` from `interfaces/PolicyTypes.ts`. -/
structure PolicyContext where
  toolName : String
  args : Option JsValue

/-- A policy plugin instance: a name and its (sequentially awaited, hence
modelled pure) `evaluate`. -/
structure PolicyPlugin where
  name : String
  evaluate : PolicyContext → PolicyResult

/-- Ambient effectful inputs read by the processor: `new Date().toISOString()`,
`uuidv7()`, and `getGuardioVersion()`. -/
structure JsEnv where
  now : String
  freshEventId : String
  version : String

/-- `_guardio` metadata block of a blocked response (`core/types.ts`,
`GuardioBlockedResult._guardio`). `code` / `reason` are present exactly when
the source's conditional spreads include them. -/
structure GuardioMeta where
  version : String
  requestId : JsonId
  timestamp : String
  policyId : String
  action : String
  code : Option String
  reason : Option String

/-- `GuardioBlockedResult` from `core/types.ts`: `content` is a single text
entry, `isError` is literally `true`, plus the `_guardio` block. -/
structure GuardioBlockedResult where
  contentText : String
  isError : Bool
  meta : GuardioMeta

/-- The serialized blocked reply `{ jsonrpc: "2.0", id, result }`. -/
structure BlockedEnvelope where
  jsonrpc : String
  id : JsonId
  result : GuardioBlockedResult

/-- `options.reason` of `buildGuardioBlockedResponse`. -/
inductive BlockReason where
  | blocked
  | rejected
deriving DecidableEq

/-- The `options` parameter of `buildGuardioBlockedResponse`. -/
structure BlockOptions where
  toolName : String
  reason : BlockReason
  policy : Option String
  plugin : Option String
  policyCode : Option String
  policyReason : Option String

/-- `options.policyReason?.trim() || (... "Policy denied the request.")`:
the trimmed reason when it is a non-empty string, else the fallback (both
ternary branches of the source fallback are the same string). -/
def reasonDetail (policyReason : Option String) : String :=
  match policyReason with
  | none => "Policy denied the request."
  | some r => if jsTrim r = "" then "Policy denied the request." else jsTrim r

/-- The denial text template of `buildGuardioBlockedResponse`. -/
def denialText (toolName verb policyId detail : String) : String :=
  "🚫 [Guardio] Access Denied. The tool '" ++ toolName ++ "' was " ++ verb
    ++ " by '" ++ policyId ++ "'. Reason: " ++ detail

/-- `buildGuardioBlockedResponse` (Processor.ts). The source returns a JSON
string; here `none` stands for the empty string returned when the id is
`undefined`/`null`, and `some e` for `JSON.stringify` of the envelope `e`. -/
def buildGuardioBlockedResponse (env : JsEnv) (id : Option JsonId)
    (options : BlockOptions) : Option BlockedEnvelope :=
  match id with
  | none => none
  | some i =>
      let action := if options.reason = .blocked then "TOOL_BLOCKED" else "POLICY_VIOLATION"
      let policyId := options.policy.getD (options.plugin.getD "Guardio")
      let detail := reasonDetail options.policyReason
      let text := denialText options.toolName
        (if options.reason = .blocked then "blocked" else "rejected") policyId detail
      some
        { jsonrpc := "2.0"
          id := i
          result :=
            { contentText := text
              isError := true
              meta :=
                { version := env.version
                  requestId := i
                  timestamp := env.now
                  policyId := policyId
                  action := action
                  code := options.policyCode
                  reason := options.policyReason } } }

/-- `policyEvaluation` sub-record of a `GuardioEvent`. -/
structure PolicyEvaluation where
  policyName : String
  code : Option String
  reason : Option String

/-- `requestPayload` sub-record of a `GuardioEvent`. -/
structure RequestPayload where
  method : Option String
  toolName : String
  requestId : Option JsonId

/-- `GuardioEvent` as built by `buildProcessingEvent` (Processor.ts). -/
structure GuardioEvent where
  eventId : String
  timestamp : String
  schemaVersion : String
  eventType : String
  actionType : String
  agentId : Option String
  traceId : Option String
  targetResource : String
  decision : String
  policyEvaluation : Option PolicyEvaluation
  requestPayload : RequestPayload
  httpStatus : Option Nat

/-- The `outcome` parameter of `buildProcessingEvent`. -/
structure ProcessingOutcome where
  decision : String
  policyName : Option String
  policyCode : Option String
  policyReason : Option String
  httpStatus : Option Nat

/-- `ProcessInput` (Processor.ts): `eventSinks` are kept as sink names;
`agentId : string | null | undefined` collapses to an `Option` (the source
only ever checks `!= null`). -/
structure ProcessInput where
  body : String
  policyPlugins : List PolicyPlugin
  eventSinks : List String
  agentId : Option String
  traceId : Option String

/-- `...(x != null && x !== "" && { f: x })`: include a string field only when
present and non-empty. -/
def nonEmptyOpt : Option String → Option String
  | none => none
  | some s => if s = "" then none else some s

/-- `buildProcessingEvent` (Processor.ts). -/
def buildProcessingEvent (env : JsEnv) (input : ProcessInput) (request : JsonRpcRequest)
    (toolName : String) (outcome : ProcessingOutcome) : GuardioEvent :=
  { eventId := env.freshEventId
    timestamp := env.now
    schemaVersion := "0.1.0"
    eventType := "tools/call"
    actionType := toolName
    agentId := nonEmptyOpt input.agentId
    traceId := nonEmptyOpt input.traceId
    targetResource := toolName
    decision := outcome.decision
    policyEvaluation :=
      if outcome.decision = "BLOCKED" then
        match outcome.policyName with
        | some n => some { policyName := n, code := outcome.policyCode, reason := outcome.policyReason }
        | none => none
      else none
    requestPayload := { method := request.method, toolName := toolName, requestId := request.id }
    httpStatus := outcome.httpStatus }

/-- `emitProcessingEvent` (Processor.ts): one `sink.emit(event)` call per
configured sink (`Promise.all`; per-sink failures are caught and logged, so
the call list does not depend on failures). Returns the calls made. -/
def emitProcessingEvent (eventSinks : List String) (event : GuardioEvent) :
    List (String × GuardioEvent) :=
  eventSinks.map (fun s => (s, event))

/-- Outcome of the policy loop in `processMessage`: either the first
blocking plugin together with its result, or the accumulated arguments. -/
inductive PolicyOutcome where
  | blocked (policy : PolicyPlugin) (result : PolicyResult)
  | allowed (args : Option JsValue)

/-- The `for (const policy of policyPlugins)` loop of `processMessage`:
a `block` verdict stops immediately; otherwise present `modified_args` are
spread over the current arguments and iteration continues. -/
def runPolicies (toolName : String) (policies : List PolicyPlugin)
    (args : Option JsValue) : PolicyOutcome :=
  match policies with
  | [] => .allowed args
  | p :: rest =>
      let r := p.evaluate { toolName := toolName, args := args }
      if r.verdict = .block then .blocked p r
      else
        match r.modified_args with
        | some m => runPolicies toolName rest (some (.obj (objAssign (spreadable args) m)))
        | none => runPolicies toolName rest args

/-- Observation of the same loop: the `modified_args` returned by each
non-blocking policy, in evaluation order (empty past a block). -/
def overrideTrace (toolName : String) (policies : List PolicyPlugin)
    (args : Option JsValue) : List (List (String × JsValue)) :=
  match policies with
  | [] => []
  | p :: rest =>
      let r := p.evaluate { toolName := toolName, args := args }
      if r.verdict = .block then []
      else
        match r.modified_args with
        | some m => m :: overrideTrace toolName rest (some (.obj (objAssign (spreadable args) m)))
        | none => overrideTrace toolName rest args

/-- The string handed back for forwarding: either the input body passed
through verbatim (`bodyToSend: body`) or `JSON.stringify` of the
re-serialized request (`bodyToSend: JSON.stringify({...request, params})`). -/
inductive BodyToSend where
  | raw (body : String)
  | reser (request : JsonRpcRequest)

/-- `ProcessResult` (Processor.ts). In the handled case, `none` body stands
for the empty string (`responseBody || ""`). -/
inductive ProcessResult where
  | handled (status : Nat) (body : Option BlockedEnvelope)
  | forward (bodyToSend : BodyToSend)

/-- What `processMessage` produces: the returned `ProcessResult`, the
`GuardioEvent` built for the call (`none` on the fail-open paths, which
return before any event is built), and the `sink.emit` calls performed. -/
structure ProcessOutput where
  result : ProcessResult
  event : Option GuardioEvent
  emits : List (String × GuardioEvent)

/-- `const toolName = request.params?.name ?? "(unknown)"`. -/
def toolNameOf (request : JsonRpcRequest) : String :=
  (request.params.bind (fun p => p.name)).getD "(unknown)"

/-- `let args = request.params?.arguments`. -/
def argsOf (request : JsonRpcRequest) : Option JsValue :=
  request.params.bind (fun p => p.arguments)

/-- `processMessage` (Processor.ts), parametrized by `parse`, the behaviour
of `JSON.parse` on the submitted body (`none` = the parse threw). -/
def processMessage (env : JsEnv) (parse : String → Option JsonRpcRequest)
    (input : ProcessInput) : ProcessOutput :=
  match parse input.body with
  | none => { result := .forward (.raw input.body), event := none, emits := [] }
  | some request =>
      if request.method ≠ some "tools/call" then
        { result := .forward (.raw input.body), event := none, emits := [] }
      else
        let toolName := toolNameOf request
        let args := argsOf request
        match runPolicies toolName input.policyPlugins args with
        | .blocked policy result =>
            let responseBody := buildGuardioBlockedResponse env request.id
              { toolName := toolName
                reason := .blocked
                policy := some policy.name
                plugin := none
                policyCode := result.code
                policyReason := result.reason }
            let event := buildProcessingEvent env input request toolName
              { decision := "BLOCKED"
                policyName := some policy.name
                policyCode := result.code
                policyReason := result.reason
                httpStatus := some 200 }
            { result := .handled 200 responseBody
              event := some event
              emits := emitProcessingEvent input.eventSinks event }
        | .allowed finalArgs =>
            let event := buildProcessingEvent env input request toolName
              { decision := "ALLOWED"
                policyName := none
                policyCode := none
                policyReason := none
                httpStatus := none }
            { result := .forward (.reser
                { request with
                  params := some
                    { name := request.params.bind (fun p => p.name)
                      arguments := finalArgs } })
              event := some event
              emits := emitProcessingEvent input.eventSinks event }

/-! ## Repository: `SqliteCoreRepository.getPoliciesForContext`

The SQL query joins `policy_assignments` with `policy_instances`, filters by
`is_enabled` and the three nullable scope columns, and orders by
`priority DESC`. One flattened row per assignment. -/

/-- A joined `policy_assignments ⋈ policy_instances` row as selected by
`getPoliciesForContext`. -/
structure AssignmentRow where
  id : String
  policyInstanceId : String
  pluginId : String
  config : Option String
  agentScope : Option String
  providerScope : Option String
  capabilityScope : Option String
  priority : Int
  isEnabled : Bool

/-- SQL `(col IS NULL OR col = ?)` under three-valued logic: when the bound
parameter is SQL `NULL`, `col = NULL` is not true, so a non-null scope never
matches a null parameter. -/
def scopeMatches (scope : Option String) (param : Option String) : Bool :=
  match scope with
  | none => true
  | some s =>
      match param with
      | none => false
      | some p => s == p

/-- `ORDER BY a.priority DESC` as a relation: `a` may precede `b`. -/
def rowGE (a b : AssignmentRow) : Prop := b.priority ≤ a.priority

instance : DecidableRel rowGE := fun a b =>
  inferInstanceAs (Decidable (b.priority ≤ a.priority))

instance : IsTotal AssignmentRow rowGE :=
  ⟨fun a b => le_total b.priority a.priority⟩

instance : IsTrans AssignmentRow rowGE :=
  ⟨fun _ _ _ h₁ h₂ => le_trans h₂ h₁⟩

/-- `getPoliciesForContext` (SqliteCoreRepository.ts): the enabled rows whose
scopes match the context, ordered by priority descending (ties in
unspecified order; a sort realizes the `ORDER BY`). -/
def getPoliciesForContext (rows : List AssignmentRow)
    (agentId toolName providerId : Option String) : List AssignmentRow :=
  List.insertionSort rowGE
    (rows.filter (fun a =>
      a.isEnabled
        && scopeMatches a.agentScope agentId
        && scopeMatches a.providerScope providerId
        && scopeMatches a.capabilityScope toolName))

/-! ## Upstream transport: `SseUrlTransport.send` -/

/-- Result of the `fetch` in `send`: a settled response (status + body text),
or a rejection (network failure, or the timeout's `AbortController` firing). -/
inductive FetchOutcome where
  | success (status : Nat) (text : String)
  | failure (message : String)

/-- A line emitted on the transport's `message` stream: relayed upstream text,
or `JSON.stringify({jsonrpc:"2.0", id:null, error:{code, message}})`. -/
inductive EmittedMessage where
  | upstreamText (text : String)
  | rpcError (code : Int) (message : String)
deriving DecidableEq

/-- WHATWG `Response.ok`: status in [200, 299]. -/
def resOk (status : Nat) : Bool := 200 ≤ status && status < 300

/-- `SseUrlTransport.send` (sse-url-transport.ts) as the list of messages it
emits, given the discovered endpoint (if any) and the fetch outcome. The
function is total: `send` never throws. -/
def sseSend (remotePostUrl : Option String) (outcome : FetchOutcome) :
    List EmittedMessage :=
  match remotePostUrl with
  | none =>
      [.rpcError (-32603) "Remote endpoint not yet discovered (no endpoint event)"]
  | some _ =>
      match outcome with
      | .success status text =>
          if resOk status && text != "" then [.upstreamText text] else []
      | .failure message =>
          [.rpcError (-32603) ("Transport error: " ++ message)]

/-! ## Core orchestrator: readiness gate of `handlePostMessage` -/

/-- The readiness gate of `GuardioCore.handlePostMessage`:
`transport?.getRemotePostUrl() ?? null` is looked up from the
per-server transport registry, and a falsy url (`!url`: absent server,
undiscovered endpoint, or empty string) returns 503 immediately. `proceed`
stands for the whole remainder of the handler (policy resolution, the
upstream fetch, catalog refresh); the gate never invokes it without a url.
The same guard also exists in `setupEventHandlers`' `postRequest` handler. -/
def handlePostMessageGate (transports : List (String × Option String))
    (serverName : String) (proceed : String → Nat × String) : Nat × String :=
  match (aget transports serverName).join with
  | none => (503, "Remote MCP not ready")
  | some url => if url = "" then (503, "Remote MCP not ready") else proceed url

/-! ## Core orchestrator: discovery deduplication (`endpointReady` handler) -/

/-- One entry of `config.servers`. -/
structure ServerCfg where
  name : String
  url : String

/-- A provider's tool catalog (payload only; its structure is irrelevant to
the dedup logic). -/
abbrev ToolList := List String

/-- The orchestrator state touched by discovery: `discoveryInProgressByUrl`
(the keys of the in-flight map — the stored promise is the marker) and
`toolsListCache` keyed by server name. -/
structure DiscoveryState where
  inFlight : List String
  cache : List (String × ToolList)

/-- The `endpointReady` handler (GuardioCore.setupEventHandlers): evict the
server's cached catalog, find its config, and unless a discovery for the
trimmed url is already in flight, mark the url in flight and start one.
Returns the new state and the list of urls for which a handshake was
started (the best-effort DB rehydration and the client `setRemoteReady`
notification are not modelled). -/
def onEndpointReady (servers : List ServerCfg) (st : DiscoveryState)
    (serverName : String) : DiscoveryState × List String :=
  let st := { st with cache := mapDelete st.cache serverName }
  match servers.find? (fun s => s.name == serverName) with
  | none => (st, [])
  | some cfg =>
      let url := jsTrim cfg.url
      if url ∈ st.inFlight then (st, [])
      else ({ st with inFlight := url :: st.inFlight }, [url])

/-- Settlement of the single handshake for `url`: the `.finally` removes the
in-flight marker unconditionally; the `.then` populates the catalog cache of
every configured server whose trimmed url matches, when the result is
non-null (the best-effort `saveServerTools` persistence is not modelled). -/
def onDiscoveryComplete (servers : List ServerCfg) (st : DiscoveryState)
    (url : String) (result : Option ToolList) : DiscoveryState :=
  let st := { st with inFlight := st.inFlight.erase url }
  match result with
  | none => st
  | some tools =>
      { st with
        cache := servers.foldl
          (fun c s => if jsTrim s.url == url then mapSet c s.name tools else c)
          st.cache }

/-! ## Client transport: SSE close handler -/

/-- A live SSE stream handle (http-client.ts `SseStreamHandle`, minus the raw
response object). -/
structure SseStreamHandle where
  id : String
  serverName : String
deriving DecidableEq

/-- A repository call issued by the transport. -/
inductive RepoCall where
  | deleteConnection (agentId : String) (serverName : String)
deriving DecidableEq

/-- The `request.raw.on("close", ...)` handler (http-client.ts): remove the
handle from the live registry and delete the agent's connection record
(errors from the repository are caught and logged). Node fires `close` for
every termination of the underlying connection, so `cause` is taken and
ignored: the handler does not depend on why the stream closed. -/
def onSseClose (streams : List SseStreamHandle) (handle : SseStreamHandle)
    (_cause : String) : List SseStreamHandle × List RepoCall :=
  (streams.erase handle, [.deleteConnection handle.id handle.serverName])

/-! ## Built-in policy: `DenyRegexParameterPolicyPlugin`

One compiled rule; `test` models `RegExp(rule.regex, flags).test`. -/

/-- A compiled deny-regex rule (constructor of
`DenyRegexParameterPolicyPlugin`). -/
structure DenyRegexRule where
  name : String
  parameterName : String
  test : String → Bool
  pattern : String

/-- `getStringToTest` (DenyRegexParameterPolicyPlugin.ts), parametrized by
`stringify` for the `JSON.stringify(value)` fallback on structured values.
Property access on non-object `args` (whose schema-validated callers never
produce) yields `undefined`, hence the empty string. -/
def getStringToTest (stringify : JsValue → String) (context : PolicyContext)
    (parameterName : String) : String :=
  if parameterName = "" then context.toolName
  else
    match context.args with
    | some (.obj fields) =>
        match aget fields parameterName with
        | none => ""
        | some .null => ""
        | some (.str s) => s
        | some (.num n) => toString n
        | some (.bool b) => if b then "true" else "false"
        | some v => stringify v
    | _ => ""

/-- The rule loop of `DenyRegexParameterPolicyPlugin.evaluate`: first rule
whose tool name matches and whose regex accepts the extracted string blocks
with code `REGEX_POLICY_MATCH`; otherwise allow. -/
def denyRegexEvaluate (stringify : JsValue → String) (rules : List DenyRegexRule)
    (context : PolicyContext) : PolicyResult :=
  match rules with
  | [] => { verdict := .allow, code := none, reason := none, modified_args := none }
  | rule :: rest =>
      if context.toolName ≠ rule.name then denyRegexEvaluate stringify rest context
      else if rule.test (getStringToTest stringify context rule.parameterName) then
        { verdict := .block
          code := some "REGEX_POLICY_MATCH"
          reason := some ("Input matched policy rule (pattern: " ++ rule.pattern ++ ").")
          modified_args := none }
      else denyRegexEvaluate stringify rest context

/-! ## Concrete fixtures (the spec's `get_weather` / `^Paris` example) -/

/-- The rule `{ name: "get_weather", parameter_name: "city", regex: "^Paris" }`. -/
def parisRule : DenyRegexRule :=
  { name := "get_weather"
    parameterName := "city"
    test := fun s => jsStartsWith s "Paris"
    pattern := "^Paris" }

/-- A `deny-regex-parameter` plugin instance configured with `parisRule`. -/
def parisPolicy : PolicyPlugin :=
  { name := "deny-regex-parameter"
    evaluate := denyRegexEvaluate (fun _ => "") [parisRule] }

/-- The submitted body of the spec's example. -/
def parisBody : String :=
  "\x7b\"jsonrpc\":\"2.0\",\"id\":1,\"method\":\"tools/call\",\"params\":\x7b\"name\":\"get_weather\",\"arguments\":\x7b\"city\":\"Paris, FR\"\x7d\x7d\x7d"

/-- `JSON.parse parisBody`. -/
def parisRequest : JsonRpcRequest :=
  { jsonrpc := some "2.0"
    id := some (.inr 1)
    method := some "tools/call"
    params := some
      { name := some "get_weather"
        arguments := some (.obj [("city", .str "Paris, FR")]) } }

/-- A parse function agreeing with `JSON.parse` on the fixture body (and
rejecting everything else). -/
def parisParse : String → Option JsonRpcRequest :=
  fun s => if s = parisBody then some parisRequest else none

/-- Fixed ambient inputs for concrete evaluations. -/
def testEnv : JsEnv :=
  { now := "2025-01-01T00:00:00.000Z"
    freshEventId := "0194-fixed-event-id"
    version := "0.6.0" }

/-- The processing input of the spec's example (one blocking policy). -/
def parisInput : ProcessInput :=
  { body := parisBody
    policyPlugins := [parisPolicy]
    eventSinks := ["sqlite"]
    agentId := some "agent-1"
    traceId := none }

/-- The `_guardio.action` carried by a handled (blocked) response, if any. -/
def handledAction : ProcessResult → Option String
  | .handled _ (some e) => some e.result.meta.action
  | _ => none

/-- The value at key `k` of a request's `params.arguments` object, if any. -/
def agetArgs (r : JsonRpcRequest) (k : String) : Option JsValue :=
  match r.params.bind (fun p => p.arguments) with
  | some (.obj fields) => aget fields k
  | _ => none

/-- A policy that always allows without overrides. -/
def allowAllPolicy : PolicyPlugin :=
  { name := "allow-all"
    evaluate := fun _ =>
      { verdict := .allow, code := none, reason := none, modified_args := none } }

/-- A policy overriding `units` and `lang`. -/
def overridePolicyA : PolicyPlugin :=
  { name := "override-a"
    evaluate := fun _ =>
      { verdict := .allow
        code := none
        reason := none
        modified_args := some [("units", .str "metric"), ("lang", .str "fr")] } }

/-- A policy overriding only `lang` (conflicting with `overridePolicyA`). -/
def overridePolicyB : PolicyPlugin :=
  { name := "override-b"
    evaluate := fun _ =>
      { verdict := .allow
        code := none
        reason := none
        modified_args := some [("lang", .str "en")] } }

/-- The fixture submission evaluated against the two override policies. -/
def overrideInput : ProcessInput :=
  { body := parisBody
    policyPlugins := [overridePolicyA, overridePolicyB]
    eventSinks := []
    agentId := none
    traceId := none }

/-- The fixture submission with zero matching policy assignments. -/
def allowInput : ProcessInput :=
  { body := parisBody
    policyPlugins := []
    eventSinks := ["sqlite"]
    agentId := some "agent-1"
    traceId := none }

/-- A submission body that is not valid JSON. -/
def nonJsonInput : ProcessInput :=
  { body := "this is not JSON"
    policyPlugins := [parisPolicy]
    eventSinks := ["sqlite"]
    agentId := some "agent-1"
    traceId := none }

/-- An `initialize` request (not `tools/call`). -/
def initializeBody : String :=
  "\x7b\"jsonrpc\":\"2.0\",\"id\":0,\"method\":\"initialize\"\x7d"

/-- `JSON.parse initializeBody`. -/
def initializeRequest : JsonRpcRequest :=
  { jsonrpc := some "2.0"
    id := some (.inr 0)
    method := some "initialize"
    params := none }

/-- A parse function agreeing with `JSON.parse` on both fixture bodies. -/
def fixtureParse : String → Option JsonRpcRequest :=
  fun s =>
    if s = parisBody then some parisRequest
    else if s = initializeBody then some initializeRequest
    else none

/-- The `initialize` submission. -/
def initializeInput : ProcessInput :=
  { body := initializeBody
    policyPlugins := [parisPolicy]
    eventSinks := ["sqlite"]
    agentId := some "agent-1"
    traceId := none }

/-- The Paris example sent as a notification: no request id. -/
def parisNotifBody : String :=
  "\x7b\"jsonrpc\":\"2.0\",\"method\":\"tools/call\",\"params\":\x7b\"name\":\"get_weather\",\"arguments\":\x7b\"city\":\"Paris, FR\"\x7d\x7d\x7d"

/-- `JSON.parse parisNotifBody`. -/
def parisNotifRequest : JsonRpcRequest :=
  { jsonrpc := some "2.0"
    id := none
    method := some "tools/call"
    params := some
      { name := some "get_weather"
        arguments := some (.obj [("city", .str "Paris, FR")]) } }

/-- Parse function for the notification fixture. -/
def parisNotifParse : String → Option JsonRpcRequest :=
  fun s => if s = parisNotifBody then some parisNotifRequest else none

/-- The id-less blocked submission. -/
def parisNotifInput : ProcessInput :=
  { body := parisNotifBody
    policyPlugins := [parisPolicy]
    eventSinks := []
    agentId := none
    traceId := none }

/-- A low-priority global assignment row. -/
def rowLow : AssignmentRow :=
  { id := "asg-1"
    policyInstanceId := "pi-1"
    pluginId := "deny-regex-parameter"
    config := none
    agentScope := none
    providerScope := none
    capabilityScope := none
    priority := 1
    isEnabled := true }

/-- A high-priority global assignment row. -/
def rowHigh : AssignmentRow :=
  { id := "asg-2"
    policyInstanceId := "pi-2"
    pluginId := "deny-tool-access"
    config := none
    agentScope := none
    providerScope := none
    capabilityScope := none
    priority := 10
    isEnabled := true }

/-! ## Helper lemmas -/

theorem aget_append {α : Type} (l₁ l₂ : List (String × α)) (k : String) :
    aget (l₁ ++ l₂) k = oor (aget l₁ k) (aget l₂ k) := by
  induction l₁ with
  | nil => simp [aget, oor]
  | cons p rest ih =>
      rcases p with ⟨a, b⟩
      by_cases h : k = a <;> simp [aget, oor, h, ih]

theorem aget_mapSet {α : Type} (l : List (String × α)) (k : String) (v : α)
    (k' : String) :
    aget (mapSet l k v) k' = if k' = k then some v else aget l k' := by
  induction l with
  | nil => by_cases h : k' = k <;> simp [mapSet, aget, h]
  | cons p rest ih =>
      rcases p with ⟨a, b⟩
      by_cases ha : a = k
      · subst ha
        by_cases hk : k' = a <;> simp [mapSet, aget, hk]
      · by_cases hk : k' = a
        · subst hk
          have : ¬ k' = k := fun h => ha (h ▸ rfl)
          simp [mapSet, aget, ha, this]
        · simp [mapSet, aget, ha, hk, ih]

theorem objAssign_nil (l : List (String × JsValue)) : objAssign l [] = l := rfl

theorem objAssign_cons (l : List (String × JsValue)) (k : String) (v : JsValue)
    (m : List (String × JsValue)) :
    objAssign l ((k, v) :: m) = objAssign (mapSet l k v) m := rfl

theorem objAssign_append (l m₁ m₂ : List (String × JsValue)) :
    objAssign l (m₁ ++ m₂) = objAssign (objAssign l m₁) m₂ := by
  simp [objAssign, List.foldl_append]

theorem aget_objAssign (l m : List (String × JsValue)) (k : String) :
    aget (objAssign l m) k = oor (aget m.reverse k) (aget l k) := by
  induction m generalizing l with
  | nil => simp [objAssign, oor, aget]
  | cons p rest ih =>
      rcases p with ⟨a, b⟩
      rw [objAssign_cons, ih, List.reverse_cons, aget_append, aget_mapSet]
      cases hr : aget rest.reverse k
      · by_cases hk : k = a <;> simp [aget, oor, hk]
      · simp [oor]

theorem runPolicies_append (t : String) (xs ys : List PolicyPlugin)
    (a : Option JsValue) :
    runPolicies t (xs ++ ys) a =
      match runPolicies t xs a with
      | .allowed a' => runPolicies t ys a'
      | .blocked p r => .blocked p r := by
  induction xs generalizing a with
  | nil => simp [runPolicies]
  | cons p rest ih =>
      simp only [List.cons_append, runPolicies]
      by_cases hb : (p.evaluate { toolName := t, args := a }).verdict = .block
      · simp [hb]
      · cases hm : (p.evaluate { toolName := t, args := a }).modified_args <;>
          simp [hb, hm, ih]

theorem runPolicies_allowed_args (t : String) (ps : List PolicyPlugin)
    (fs : List (String × JsValue)) (a : Option JsValue)
    (h : runPolicies t ps (some (.obj fs)) = .allowed a) :
    a = some (.obj (objAssign fs (overrideTrace t ps (some (.obj fs))).flatten)) := by
  induction ps generalizing fs with
  | nil =>
      simp only [runPolicies, PolicyOutcome.allowed.injEq] at h
      simp [overrideTrace, objAssign_nil, ← h]
  | cons p rest ih =>
      simp only [runPolicies, overrideTrace] at h ⊢
      by_cases hb : (p.evaluate { toolName := t, args := some (.obj fs) }).verdict = .block
      · simp [hb] at h
      · simp only [hb, if_false, Bool.false_eq_true] at h ⊢
        cases hm : (p.evaluate { toolName := t, args := some (.obj fs) }).modified_args with
        | none =>
            rw [hm] at h
            simpa [hm] using ih fs h
        | some m =>
            rw [hm] at h
            have hsp : spreadable (some (.obj fs)) = fs := rfl
            rw [hsp] at h
            have := ih (objAssign fs m) h
            simpa [hm, hsp, List.flatten_cons, objAssign_append] using this

theorem aget_populate_preserve (servers : List ServerCfg) (url : String)
    (tools : ToolList) (c : List (String × ToolList)) (nm : String)
    (h : aget c nm = some tools) :
    aget (servers.foldl
        (fun c s => if jsTrim s.url == url then mapSet c s.name tools else c) c)
      nm = some tools := by
  induction servers generalizing c with
  | nil => simpa using h
  | cons s rest ih =>
      simp only [List.foldl_cons]
      by_cases hs : jsTrim s.url == url
      · simp only [hs, if_true]
        apply ih
        rw [aget_mapSet]
        by_cases hn : nm = s.name <;> simp [hn, h]
      · simp only [hs, Bool.false_eq_true, if_false]
        exact ih c h

theorem aget_populate_member (servers : List ServerCfg) (url : String)
    (tools : ToolList) (c : List (String × ToolList)) (s : ServerCfg)
    (hmem : s ∈ servers) (hurl : jsTrim s.url = url) :
    aget (servers.foldl
        (fun c s => if jsTrim s.url == url then mapSet c s.name tools else c) c)
      s.name = some tools := by
  induction servers generalizing c with
  | nil => cases hmem
  | cons t rest ih =>
      simp only [List.foldl_cons]
      rcases List.mem_cons.mp hmem with h | h
      · subst h
        have hcond : (jsTrim s.url == url) = true := by simp [hurl]
        simp only [hcond, if_true]
        apply aget_populate_preserve
        simp [aget_mapSet]
      · by_cases hs : jsTrim t.url == url <;> simp only [hs, if_true,
          Bool.false_eq_true, if_false] <;> exact ih _ h

/-! ## Claims -/

/-- C1, the claim as stated is false on the code: for the spec's own example —
a deny-regex rule on tool `get_weather`, parameter `city`, pattern `^Paris`,
submitted with arguments `{city: "Paris, FR"}` and request id 1 — the blocked
response's `_guardio.action` is `TOOL_BLOCKED`, not `POLICY_VIOLATION`
(`processMessage` passes `reason: "blocked"`, which
`buildGuardioBlockedResponse` maps to `GuardioAction.TOOL_BLOCKED`). -/
theorem claim1_counterexample :
    handledAction (processMessage testEnv parisParse parisInput).result
        = some "TOOL_BLOCKED" ∧
      (some "TOOL_BLOCKED" : Option String) ≠ some "POLICY_VIOLATION" := by
  exact ⟨rfl, by simp⟩

/-- C1 (amended): for every tools/call submission carrying a request id that a
policy blocks, `processMessage` returns a handled result with HTTP status 200
whose body is a JSON-RPC success envelope (a `result`, not an `error`)
containing an error-indicating payload (`isError` true, text content) and a
`_guardio` metadata block with version, the echoed request id, a timestamp,
the blocking policy's identifier, action equal to `TOOL_BLOCKED`, and code
equal to the policy result's configured code. -/
theorem claim1_blocked_response_shape (env : JsEnv)
    (parse : String → Option JsonRpcRequest) (input : ProcessInput)
    (r : JsonRpcRequest) (i : JsonId) (p : PolicyPlugin) (res : PolicyResult)
    (hparse : parse input.body = some r)
    (hm : r.method = some "tools/call")
    (hid : r.id = some i)
    (hblk : runPolicies (toolNameOf r) input.policyPlugins (argsOf r)
      = .blocked p res) :
    (processMessage env parse input).result = .handled 200 (some
      { jsonrpc := "2.0"
        id := i
        result :=
          { contentText := denialText (toolNameOf r) "blocked" p.name
              (reasonDetail res.reason)
            isError := true
            meta :=
              { version := env.version
                requestId := i
                timestamp := env.now
                policyId := p.name
                action := "TOOL_BLOCKED"
                code := res.code
                reason := res.reason } } }) := by
  simp [processMessage, hparse, hm, hblk, hid, buildGuardioBlockedResponse]

/-- C1 witness: the spec's example with request id 1 produces the full blocked
envelope with action `TOOL_BLOCKED` and the rule's code `REGEX_POLICY_MATCH`. -/
theorem claim1_blocked_response_shape_witness :
    (processMessage testEnv parisParse parisInput).result = .handled 200 (some
      { jsonrpc := "2.0"
        id := .inr 1
        result :=
          { contentText := "🚫 [Guardio] Access Denied. The tool 'get_weather' was blocked by 'deny-regex-parameter'. Reason: Input matched policy rule (pattern: ^Paris)."
            isError := true
            meta :=
              { version := "0.6.0"
                requestId := .inr 1
                timestamp := "2025-01-01T00:00:00.000Z"
                policyId := "deny-regex-parameter"
                action := "TOOL_BLOCKED"
                code := some "REGEX_POLICY_MATCH"
                reason := some "Input matched policy rule (pattern: ^Paris)." } } }) :=
  claim1_blocked_response_shape testEnv parisParse parisInput parisRequest
    (.inr 1) parisPolicy
    { verdict := .block
      code := some "REGEX_POLICY_MATCH"
      reason := some "Input matched policy rule (pattern: ^Paris)."
      modified_args := none }
    rfl rfl rfl rfl

/-- C10: for every tools/call that a policy blocks where the parsed request
carries no JSON-RPC id, `buildGuardioBlockedResponse` returns the empty
string, so the handled result is HTTP 200 with an empty body — no envelope,
text payload or `_guardio` metadata (`none` models the empty string). -/
theorem claim10_idless_blocked_empty_body (env : JsEnv)
    (parse : String → Option JsonRpcRequest) (input : ProcessInput)
    (r : JsonRpcRequest) (p : PolicyPlugin) (res : PolicyResult)
    (hparse : parse input.body = some r)
    (hm : r.method = some "tools/call")
    (hid : r.id = none)
    (hblk : runPolicies (toolNameOf r) input.policyPlugins (argsOf r)
      = .blocked p res) :
    (processMessage env parse input).result = .handled 200 none := by
  simp [processMessage, hparse, hm, hblk, hid, buildGuardioBlockedResponse]

/-- C10 witness: the Paris example sent without an id yields status 200 with
empty body. -/
theorem claim10_idless_blocked_empty_body_witness :
    (processMessage testEnv parisNotifParse parisNotifInput).result
      = .handled 200 none :=
  claim10_idless_blocked_empty_body testEnv parisNotifParse parisNotifInput
    parisNotifRequest parisPolicy
    { verdict := .block
      code := some "REGEX_POLICY_MATCH"
      reason := some "Input matched policy rule (pattern: ^Paris)."
      modified_args := none }
    rfl rfl rfl rfl

/-- C2: the resolved policy list is ordered by assignment priority
descending (`getPoliciesForContext` realizes `ORDER BY priority DESC`), and
during evaluation the first policy returning verdict `block` stops iteration
immediately: with `pre` not blocking and `p` blocking at the reached
arguments, the outcome over `pre ++ p :: post` is `p`'s block for every
`post` (no later policy influences it), and the call is not forwarded. -/
theorem claim2_priority_order_short_circuit
    (rows : List AssignmentRow) (agentId toolName providerId : Option String)
    (env : JsEnv) (parse : String → Option JsonRpcRequest) (input : ProcessInput)
    (r : JsonRpcRequest) (pre post : List PolicyPlugin) (p : PolicyPlugin)
    (a' : Option JsValue)
    (hplugins : input.policyPlugins = pre ++ p :: post)
    (hparse : parse input.body = some r)
    (hm : r.method = some "tools/call")
    (hpre : runPolicies (toolNameOf r) pre (argsOf r) = .allowed a')
    (hblk : (p.evaluate { toolName := toolNameOf r, args := a' }).verdict
      = .block) :
    List.Sorted rowGE (getPoliciesForContext rows agentId toolName providerId) ∧
    runPolicies (toolNameOf r) input.policyPlugins (argsOf r)
      = .blocked p (p.evaluate { toolName := toolNameOf r, args := a' }) ∧
    ∀ b, (processMessage env parse input).result ≠ .forward b := by
  have hshort : runPolicies (toolNameOf r) input.policyPlugins (argsOf r)
      = .blocked p (p.evaluate { toolName := toolNameOf r, args := a' }) := by
    rw [hplugins, runPolicies_append, hpre]
    simp [runPolicies, hblk]
  refine ⟨List.sorted_insertionSort rowGE _, hshort, ?_⟩
  intro b
  simp [processMessage, hparse, hm, hshort]

/-- C2 witness: with rows `[priority 1, priority 10]` the resolved list is
sorted descending, and the Paris example followed by a further policy blocks
at the first policy without being forwarded. -/
theorem claim2_priority_order_short_circuit_witness :
    List.Sorted rowGE (getPoliciesForContext [rowLow, rowHigh] none none none) ∧
    runPolicies "get_weather" [parisPolicy, allowAllPolicy]
        (some (.obj [("city", .str "Paris, FR")]))
      = .blocked parisPolicy
          (parisPolicy.evaluate
            { toolName := "get_weather"
              args := some (.obj [("city", .str "Paris, FR")]) }) ∧
    (processMessage testEnv parisParse
        { parisInput with policyPlugins := [parisPolicy, allowAllPolicy] }).result
      ≠ .forward (.raw parisBody) := by
  have h := claim2_priority_order_short_circuit [rowLow, rowHigh] none none none
    testEnv parisParse
    { parisInput with policyPlugins := [parisPolicy, allowAllPolicy] }
    parisRequest [] [allowAllPolicy] parisPolicy
    (some (.obj [("city", .str "Paris, FR")]))
    rfl rfl rfl rfl rfl
  exact ⟨h.1, h.2.1, h.2.2 (.raw parisBody)⟩

/-- C3: a body that does not parse, and a parsed body whose method is not
`tools/call`, are both forwarded with `bodyToSend` the input body string
unchanged byte-for-byte (the conclusion holds for every `input.policyPlugins`,
so no policy evaluation influences it, and no event is built). -/
theorem claim3_fail_open_forwarding (env : JsEnv)
    (parse : String → Option JsonRpcRequest) (input : ProcessInput) :
    (parse input.body = none →
      processMessage env parse input
        = { result := .forward (.raw input.body), event := none, emits := [] }) ∧
    (∀ r, parse input.body = some r → r.method ≠ some "tools/call" →
      processMessage env parse input
        = { result := .forward (.raw input.body), event := none, emits := [] }) := by
  constructor
  · intro h
    simp [processMessage, h]
  · intro r h hm
    simp [processMessage, h, hm]

/-- C3 witness: a non-JSON body and an `initialize` request are both
forwarded verbatim. -/
theorem claim3_fail_open_forwarding_witness :
    processMessage testEnv fixtureParse nonJsonInput
        = { result := .forward (.raw "this is not JSON"), event := none, emits := [] } ∧
    processMessage testEnv fixtureParse initializeInput
        = { result := .forward (.raw initializeBody), event := none, emits := [] } :=
  ⟨(claim3_fail_open_forwarding testEnv fixtureParse nonJsonInput).1 rfl,
    (claim3_fail_open_forwarding testEnv fixtureParse initializeInput).2
      initializeRequest rfl (by simp [initializeRequest])⟩

/-- C4: when no policy blocks, the forwarded call's arguments equal the
original arguments merged left-to-right with each policy's `modified_args`
in evaluation order (`overrideTrace` lists them); for every key, the
forwarded value is the value from the latest override carrying the key
(later policies overwrite earlier ones), falling back to the original
argument object — so the union of all override keys is present. -/
theorem claim4_override_chaining (env : JsEnv)
    (parse : String → Option JsonRpcRequest) (input : ProcessInput)
    (r : JsonRpcRequest) (n : Option String) (fs : List (String × JsValue))
    (g : JsonRpcRequest)
    (hparse : parse input.body = some r)
    (hm : r.method = some "tools/call")
    (hp : r.params = some { name := n, arguments := some (.obj fs) })
    (hfwd : (processMessage env parse input).result = .forward (.reser g)) :
    g.params = some
      { name := n
        arguments := some (.obj (objAssign fs
          (overrideTrace (toolNameOf r) input.policyPlugins
            (some (.obj fs))).flatten)) } ∧
    ∀ k, agetArgs g k =
      oor (aget (overrideTrace (toolNameOf r) input.policyPlugins
            (some (.obj fs))).flatten.reverse k)
        (aget fs k) := by
  have hargs : argsOf r = some (.obj fs) := by simp [argsOf, hp]
  cases hrp : runPolicies (toolNameOf r) input.policyPlugins (argsOf r) with
  | blocked q res =>
      simp [processMessage, hparse, hm, hrp] at hfwd
  | allowed a =>
      have ha : a = some (.obj (objAssign fs
          (overrideTrace (toolNameOf r) input.policyPlugins
            (some (.obj fs))).flatten)) :=
        runPolicies_allowed_args _ _ _ _ (hargs ▸ hrp)
      have hres : (processMessage env parse input).result = .forward (.reser
          { r with
              params := some
                { name := r.params.bind (fun p => p.name)
                  arguments := a } }) := by
        simp [processMessage, hparse, hm, hrp]
      have hEq := hfwd.symm.trans hres
      simp only [ProcessResult.forward.injEq, BodyToSend.reser.injEq] at hEq
      have hg : g.params = some
          { name := n
            arguments := some (.obj (objAssign fs
              (overrideTrace (toolNameOf r) input.policyPlugins
                (some (.obj fs))).flatten)) } := by
        rw [hEq]
        simp [hp, ha]
      refine ⟨hg, fun k => ?_⟩
      simp [agetArgs, hg, aget_objAssign]

/-- C4 witness: two override policies applied to the Paris call both apply;
`units` comes from the first, the conflicting `lang` from the second, `city`
from the original arguments. -/
theorem claim4_override_chaining_witness :
    ({ jsonrpc := some "2.0"
       id := some (.inr 1)
       method := some "tools/call"
       params := some
        { name := some "get_weather"
          arguments := some (.obj
            [("city", .str "Paris, FR"), ("units", .str "metric"),
              ("lang", .str "en")]) } } : JsonRpcRequest).params = some
      { name := some "get_weather"
        arguments := some (.obj (objAssign [("city", .str "Paris, FR")]
          (overrideTrace "get_weather" overrideInput.policyPlugins
            (some (.obj [("city", .str "Paris, FR")]))).flatten)) } ∧
    agetArgs
      { jsonrpc := some "2.0"
        id := some (.inr 1)
        method := some "tools/call"
        params := some
          { name := some "get_weather"
            arguments := some (.obj
              [("city", .str "Paris, FR"), ("units", .str "metric"),
                ("lang", .str "en")]) } } "lang" = some (.str "en") := by
  have h := claim4_override_chaining testEnv parisParse overrideInput
    parisRequest (some "get_weather") [("city", .str "Paris, FR")]
    { jsonrpc := some "2.0"
      id := some (.inr 1)
      method := some "tools/call"
      params := some
        { name := some "get_weather"
          arguments := some (.obj
            [("city", .str "Paris, FR"), ("units", .str "metric"),
              ("lang", .str "en")]) } }
    rfl rfl rfl rfl
  exact ⟨h.1, (h.2 "lang").trans rfl⟩

/-- C5: for a well-formed tools/call submission with an empty resolved policy
list, `processMessage` forwards the call with arguments identical to the
submitted call's arguments, and builds an `ALLOWED` audit event which is
emitted to each configured event sink. -/
theorem claim5_allow_pass_through (env : JsEnv)
    (parse : String → Option JsonRpcRequest) (input : ProcessInput)
    (r : JsonRpcRequest)
    (hparse : parse input.body = some r)
    (hm : r.method = some "tools/call")
    (hempty : input.policyPlugins = []) :
    (processMessage env parse input).result = .forward (.reser
      { r with
          params := some
            { name := r.params.bind (fun p => p.name)
              arguments := argsOf r } }) ∧
    (processMessage env parse input).event = some
      (buildProcessingEvent env input r (toolNameOf r)
        { decision := "ALLOWED", policyName := none, policyCode := none
          policyReason := none, httpStatus := none }) ∧
    (buildProcessingEvent env input r (toolNameOf r)
        { decision := "ALLOWED", policyName := none, policyCode := none
          policyReason := none, httpStatus := none }).decision = "ALLOWED" ∧
    (processMessage env parse input).emits = input.eventSinks.map (fun s =>
      (s, buildProcessingEvent env input r (toolNameOf r)
        { decision := "ALLOWED", policyName := none, policyCode := none
          policyReason := none, httpStatus := none })) := by
  refine ⟨?_, ?_, rfl, ?_⟩ <;>
    simp [processMessage, hparse, hm, hempty, runPolicies, argsOf,
      emitProcessingEvent]

/-- C5 witness: the Paris call with zero policies is forwarded with its
arguments untouched and an `ALLOWED` event goes to the `sqlite` sink. -/
theorem claim5_allow_pass_through_witness :
    (processMessage testEnv parisParse allowInput).result = .forward (.reser
      { parisRequest with
          params := some
            { name := some "get_weather"
              arguments := some (.obj [("city", .str "Paris, FR")]) } }) ∧
    (processMessage testEnv parisParse allowInput).event = some
      (buildProcessingEvent testEnv allowInput parisRequest "get_weather"
        { decision := "ALLOWED", policyName := none, policyCode := none
          policyReason := none, httpStatus := none }) ∧
    (buildProcessingEvent testEnv allowInput parisRequest "get_weather"
        { decision := "ALLOWED", policyName := none, policyCode := none
          policyReason := none, httpStatus := none }).decision = "ALLOWED" ∧
    (processMessage testEnv parisParse allowInput).emits =
      [("sqlite", buildProcessingEvent testEnv allowInput parisRequest "get_weather"
        { decision := "ALLOWED", policyName := none, policyCode := none
          policyReason := none, httpStatus := none })] :=
  claim5_allow_pass_through testEnv parisParse allowInput parisRequest rfl rfl rfl

/-- C6: a submission to a provider whose upstream has not announced a write
endpoint (`getRemotePostUrl()` null) returns HTTP 503 "Remote MCP not ready"
immediately; the conclusion holds for every continuation `proceed`, so the
submission is never queued, retried, or otherwise processed. -/
theorem claim6_readiness_gate (transports : List (String × Option String))
    (serverName : String) (proceed : String → Nat × String)
    (h : (aget transports serverName).join = none) :
    handlePostMessageGate transports serverName proceed
      = (503, "Remote MCP not ready") := by
  have h' : (aget transports serverName).bind (fun a => a) = none := h
  simp [handlePostMessageGate, h']

/-- C6 witness: a registered provider with no discovered endpoint yields 503
even for a continuation that would answer 200. -/
theorem claim6_readiness_gate_witness :
    handlePostMessageGate [("weather", none)] "weather" (fun u => (200, u))
      = (503, "Remote MCP not ready") :=
  claim6_readiness_gate [("weather", none)] "weather" (fun u => (200, u)) rfl

/-- C7, the claim as stated is false on the code: with the endpoint known, a
non-ok upstream HTTP response (here 500) yields no emission at all — in
particular no JSON-RPC error message with code -32603 is pushed onto the
stream (`send` only emits on `res.ok && text`, and only the catch path
synthesizes an error). -/
theorem claim7_counterexample :
    sseSend (some "http://upstream/messages")
        (.success 500 "Internal Server Error") = [] := rfl

/-- C7 (amended): while the endpoint is known, a write timeout or network
failure (a `fetch` rejection) yields exactly one protocol-shaped JSON-RPC
error message with code -32603 emitted back onto the message stream, and
`send` never throws (the model is total); a non-ok upstream HTTP response
however yields no emission, while an ok non-empty response is relayed. -/
theorem claim7_send_error_reporting (endpoint message : String)
    (status : Nat) (text : String) :
    sseSend (some endpoint) (.failure message)
      = [.rpcError (-32603) ("Transport error: " ++ message)] ∧
    (resOk status = false → sseSend (some endpoint) (.success status text) = []) ∧
    (resOk status = true → text ≠ "" →
      sseSend (some endpoint) (.success status text) = [.upstreamText text]) := by
  refine ⟨rfl, fun h => ?_, fun h ht => ?_⟩
  · simp [sseSend, h]
  · simp [sseSend, h, ht]

/-- C7 witness: a timed-out write produces the -32603 message, a 502 response
produces nothing, a 200 response with a body is relayed. -/
theorem claim7_send_error_reporting_witness :
    sseSend (some "http://upstream/messages")
        (.failure "The operation was aborted")
      = [.rpcError (-32603) "Transport error: The operation was aborted"] ∧
    sseSend (some "http://upstream/messages") (.success 502 "Bad Gateway") = [] ∧
    sseSend (some "http://upstream/messages") (.success 200 "\x7b\x7d")
      = [.upstreamText "\x7b\x7d"] := by
  have h := claim7_send_error_reporting "http://upstream/messages"
    "The operation was aborted" 502 "Bad Gateway"
  have h2 := claim7_send_error_reporting "http://upstream/messages"
    "The operation was aborted" 200 "\x7b\x7d"
  exact ⟨h.1, h.2.1 rfl, h2.2.2 rfl (by simp)⟩

/-- C8: for a configured provider found for `serverName`, (a) a readiness
transition while a discovery for its trimmed address is in flight starts no
second handshake and leaves the in-flight set unchanged; (b) completion with
any result — a tool list or the null of a timed-out or failed handshake —
always removes the in-flight marker; (c) when the single handshake resolves
with a non-null tool list, the catalog cache of every configured provider
with that address is populated from that one result; (d) once the marker is
gone, a later readiness transition re-triggers discovery. -/
theorem claim8_discovery_dedup (servers : List ServerCfg) (st : DiscoveryState)
    (serverName : String) (cfg : ServerCfg) (tools : ToolList)
    (hfind : servers.find? (fun s => s.name == serverName) = some cfg) :
    (jsTrim cfg.url ∈ st.inFlight →
      (onEndpointReady servers st serverName).2 = [] ∧
      (onEndpointReady servers st serverName).1.inFlight = st.inFlight) ∧
    (∀ result : Option ToolList, st.inFlight.Nodup →
      jsTrim cfg.url
        ∉ (onDiscoveryComplete servers st (jsTrim cfg.url) result).inFlight) ∧
    (∀ s ∈ servers, jsTrim s.url = jsTrim cfg.url →
      aget (onDiscoveryComplete servers st (jsTrim cfg.url) (some tools)).cache
        s.name = some tools) ∧
    (jsTrim cfg.url ∉ st.inFlight →
      (onEndpointReady servers st serverName).2 = [jsTrim cfg.url]) := by
  refine ⟨fun hin => ?_, fun result hnd => ?_, fun s hs hurl => ?_, fun hout => ?_⟩
  · constructor <;> simp [onEndpointReady, hfind, hin]
  · cases result <;> simpa [onDiscoveryComplete] using hnd.not_mem_erase
  · simpa [onDiscoveryComplete] using
      aget_populate_member servers (jsTrim cfg.url) tools st.cache s hs hurl
  · simp [onEndpointReady, hfind, hout]

/-- C8 witness: two providers sharing one address — with the address already
in flight nothing starts; completing clears the marker both for a tool list
and for a null (failed/timed-out) result; a non-null result fills both
providers' caches; afterwards readiness re-triggers discovery. -/
theorem claim8_discovery_dedup_witness :
    ((onEndpointReady [⟨"alpha", "http://mcp.example/sse"⟩, ⟨"beta", "http://mcp.example/sse "⟩]
        ⟨["http://mcp.example/sse"], []⟩ "alpha").2 = [] ∧
      (onEndpointReady [⟨"alpha", "http://mcp.example/sse"⟩, ⟨"beta", "http://mcp.example/sse "⟩]
        ⟨["http://mcp.example/sse"], []⟩ "alpha").1.inFlight
          = ["http://mcp.example/sse"]) ∧
    "http://mcp.example/sse"
      ∉ (onDiscoveryComplete [⟨"alpha", "http://mcp.example/sse"⟩, ⟨"beta", "http://mcp.example/sse "⟩]
          ⟨["http://mcp.example/sse"], []⟩ "http://mcp.example/sse"
          (some ["get_weather"])).inFlight ∧
    "http://mcp.example/sse"
      ∉ (onDiscoveryComplete [⟨"alpha", "http://mcp.example/sse"⟩, ⟨"beta", "http://mcp.example/sse "⟩]
          ⟨["http://mcp.example/sse"], []⟩ "http://mcp.example/sse"
          none).inFlight ∧
    aget (onDiscoveryComplete [⟨"alpha", "http://mcp.example/sse"⟩, ⟨"beta", "http://mcp.example/sse "⟩]
        ⟨["http://mcp.example/sse"], []⟩ "http://mcp.example/sse"
        (some ["get_weather"])).cache "beta" = some ["get_weather"] ∧
    (onEndpointReady [⟨"alpha", "http://mcp.example/sse"⟩, ⟨"beta", "http://mcp.example/sse "⟩]
        ⟨[], []⟩ "alpha").2 = ["http://mcp.example/sse"] := by
  have h₁ := claim8_discovery_dedup
    [⟨"alpha", "http://mcp.example/sse"⟩, ⟨"beta", "http://mcp.example/sse "⟩]
    ⟨["http://mcp.example/sse"], []⟩ "alpha" ⟨"alpha", "http://mcp.example/sse"⟩
    ["get_weather"] rfl
  have h₂ := claim8_discovery_dedup
    [⟨"alpha", "http://mcp.example/sse"⟩, ⟨"beta", "http://mcp.example/sse "⟩]
    ⟨[], []⟩ "alpha" ⟨"alpha", "http://mcp.example/sse"⟩
    ["get_weather"] rfl
  refine ⟨h₁.1 (by simp [jsTrim]; rfl), ?_, ?_, ?_, ?_⟩
  · simpa using h₁.2.1 (some ["get_weather"]) (by simp)
  · simpa using h₁.2.1 none (by simp)
  · simpa using h₁.2.2.1 ⟨"beta", "http://mcp.example/sse "⟩ (by simp) (by rfl)
  · simpa using h₂.2.2.2 (by simp [jsTrim])

/-- C9: closing an SSE stream, for any cause, removes the live handle from
the in-memory registry (no handle for the closed connection remains) and
issues the repository `deleteConnection` for that agent and server. -/
theorem claim9_connection_cleanup (streams : List SseStreamHandle)
    (handle : SseStreamHandle) (cause : String)
    (hnodup : streams.Nodup) :
    (onSseClose streams handle cause).1 = streams.erase handle ∧
    handle ∉ (onSseClose streams handle cause).1 ∧
    (onSseClose streams handle cause).2
      = [.deleteConnection handle.id handle.serverName] := by
  exact ⟨rfl, hnodup.not_mem_erase, rfl⟩

/-- C9 witness: an abrupt close ("ECONNRESET") of one of two live streams
removes exactly its handle and triggers its connection deletion. -/
theorem claim9_connection_cleanup_witness :
    (onSseClose [⟨"agent-1", "weather"⟩, ⟨"agent-2", "weather"⟩]
        ⟨"agent-1", "weather"⟩ "ECONNRESET").1
      = [⟨"agent-2", "weather"⟩] ∧
    (⟨"agent-1", "weather"⟩ : SseStreamHandle)
      ∉ (onSseClose [⟨"agent-1", "weather"⟩, ⟨"agent-2", "weather"⟩]
          ⟨"agent-1", "weather"⟩ "ECONNRESET").1 ∧
    (onSseClose [⟨"agent-1", "weather"⟩, ⟨"agent-2", "weather"⟩]
        ⟨"agent-1", "weather"⟩ "ECONNRESET").2
      = [.deleteConnection "agent-1" "weather"] := by
  have h := claim9_connection_cleanup
    [⟨"agent-1", "weather"⟩, ⟨"agent-2", "weather"⟩]
    ⟨"agent-1", "weather"⟩ "ECONNRESET" (by simp)
  exact ⟨h.1.trans (by rfl), h.2.1, h.2.2⟩

end Guardio
